import Mathlib

/-!
Verification of the libavif Android JNI binding
(`android_jni/avifandroidjni/src/main/jni/libavif_jni.cc`).

The binding is a thin layer over two external collaborators: the libavif
decoding API (`avifDecoderCreate`, `avifDecoderParse`, `avifDecoderNextImage`,
`avifImageYUVToRGB`, ...) and the Android bitmap API
(`AndroidBitmap_getInfo`, `AndroidBitmap_lockPixels`, ...).  Those
collaborators are not part of the translated source file, so their outcomes
are modelled as an oracle structure `NativeLib`: one `NativeLib` value fixes
one encoded input together with the environment's behaviour on it, and the
theorems quantify over all such values.  Native decoder allocation is
tracked explicitly in a `NativeState` so that resource-leak properties are
statable.  Everything in the JNI source file itself (validation order,
error codes, field writes, the RAII destructor) is translated directly.
-/

/-- Result codes of the native library that the JNI layer distinguishes.
`ok` is `AVIF_RESULT_OK`, `unknownError` is `AVIF_RESULT_UNKNOWN_ERROR`
(the code the binding uses for a too-small bitmap and for Android API
failures), `notImplemented` is `AVIF_RESULT_NOT_IMPLEMENTED` (the code for
an unsupported bitmap format), and `other` stands for any further failure
code coming out of the native library. -/
inductive AvifResult where
  | ok
  | unknownError
  | notImplemented
  | other (code : Nat)
  deriving DecidableEq, Repr

/-- Android bitmap pixel formats as seen through `AndroidBitmapInfo.format`:
the three formats the binding supports, plus `other` for the rest. -/
inductive BitmapFormat where
  | rgba8888
  | rgb565
  | rgbaF16
  | other (code : Nat)
  deriving DecidableEq, Repr

/-- A decoded image as exposed through `avifDecoder::image`: the metadata the
binding reads, plus abstract plane data standing for the decoded samples. -/
structure AvifImage where
  width : Nat
  height : Nat
  depth : Nat
  planes : List Nat
  deriving DecidableEq, Repr

/-- The metadata `avifDecoderParse` fills into the decoder on success. -/
structure ParsedInfo where
  image : AvifImage
  alphaPresent : Bool
  imageCount : Nat
  repetitionCount : Int
  deriving DecidableEq, Repr

/-- The strict-decoding flags the binding manipulates
(`AVIF_STRICT_PIXI_REQUIRED`, `AVIF_STRICT_CLAP_VALID`,
`AVIF_STRICT_ALPHA_ISPE_REQUIRED`), modelled one bit per field. -/
structure StrictFlags where
  pixiRequired : Bool
  clapValid : Bool
  alphaIspeRequired : Bool
  deriving DecidableEq, Repr

/-- The fields of an `avifDecoder` that the JNI layer reads or writes. -/
structure DecoderState where
  maxThreads : Int
  ignoreXMP : Bool
  ignoreExif : Bool
  strictFlags : StrictFlags
  alphaPresent : Bool
  imageCount : Nat
  repetitionCount : Int
  imageIndex : Int
  image : AvifImage
  deriving DecidableEq, Repr

/-- RGB layouts of `avifRGBImage` that the binding selects between:
`rgba` is the default `AVIF_RGB_FORMAT_RGBA`, `rgb565` is
`AVIF_RGB_FORMAT_RGB_565`. -/
inductive RgbFormat where
  | rgba
  | rgb565
  | other (code : Nat)
  deriving DecidableEq, Repr

/-- The `avifRGBImage` fields the binding sets before calling
`avifImageYUVToRGB` (the pixel pointer is the bitmap and is modelled
separately). -/
structure RgbConfig where
  format : RgbFormat
  depth : Nat
  isFloat : Bool
  alphaPremultiplied : Bool
  rowBytes : Nat
  deriving DecidableEq, Repr

/-- A caller-supplied Android bitmap: the `AndroidBitmapInfo` fields the
binding reads, plus the pixel buffer contents as an abstract byte list. -/
structure Bitmap where
  width : Nat
  height : Nat
  stride : Nat
  format : BitmapFormat
  pixels : List Nat
  deriving DecidableEq, Repr

/-- Oracle for the external native library and the Android bitmap API on one
fixed encoded input.  Each field records the outcome of one external call;
the JNI layer never inspects these outcomes beyond comparing to
`AVIF_RESULT_OK` (or to a success boolean), so arbitrary values cover all
behaviours. -/
structure NativeLib where
  /-- `android_getCpuCount ()`. -/
  cpuCount : Int
  /-- Whether `avifDecoderCreate ()` returns a non-null decoder. -/
  createOk : Bool
  /-- Outcome of `avifDecoderSetIOMemory` on this input. -/
  setIOResult : AvifResult
  /-- Outcome of `avifDecoderParse` on this input. -/
  parseResult : AvifResult
  /-- Decoder metadata after a successful parse of this input. -/
  parsed : ParsedInfo
  /-- Outcome of `avifDecoderNextImage` when it would decode frame `k`. -/
  nextResult : Nat → AvifResult
  /-- The image produced by decoding frame `k` sequentially. -/
  nextImageAt : Nat → AvifImage
  /-- Outcome of `avifDecoderNthImage` for frame `n`. -/
  nthResult : Nat → AvifResult
  /-- The image produced by seeking to frame `n`. -/
  nthImageAt : Nat → AvifImage
  /-- `avifDecoderNthImageTiming` for frame `i`: `some` duration, or `none`
  on failure. -/
  timing : Nat → Option Float
  /-- Outcome of `avifImageYUVToRGB` for a given source image and RGB
  configuration. -/
  yuvResult : AvifImage → RgbConfig → AvifResult
  /-- The bytes `avifImageYUVToRGB` writes into the locked pixel buffer on
  success, determined by the source image and the RGB configuration. -/
  yuvPixels : AvifImage → RgbConfig → List Nat
  /-- Buffer contents after a failed `avifImageYUVToRGB` (partial writes are
  possible, so this is an arbitrary transformation of the old contents). -/
  yuvFail : AvifImage → RgbConfig → List Nat → List Nat
  /-- Whether `AndroidBitmap_getInfo` succeeds. -/
  getInfoOk : Bool
  /-- Whether `AndroidBitmap_lockPixels` succeeds. -/
  lockOk : Bool
  /-- Whether `new (std::nothrow) AvifDecoderWrapper ()` succeeds. -/
  wrapperAllocOk : Bool
  /-- Whether `new (std::nothrow) double[frameCount]` succeeds. -/
  durationsAllocOk : Bool
  /-- Whether `env->NewDoubleArray (frameCount)` succeeds. -/
  javaArrayOk : Bool

/-- Native-side allocation state: the live decoder handles and a fresh-handle
counter.  Tracking it makes leak freedom a statable property. -/
structure NativeState where
  allocated : List Nat
  nextHandle : Nat
  deriving DecidableEq, Repr

/-- Modelled from the spec: `avifDecoderCreate` (libavif proper, not part of
the translated JNI file) allocates one native decoder handle, or fails
returning null.  The freshly created decoder starts with the library
defaults; the fields the JNI layer later overwrites are given below in
`initDecoderState`. -/
def avifDecoderCreate (lib : NativeLib) (s : NativeState) :
    Option Nat × NativeState :=
  if lib.createOk then
    (some s.nextHandle,
      { allocated := s.nextHandle :: s.allocated, nextHandle := s.nextHandle + 1 })
  else (none, s)

/-- Modelled from the spec: `avifDecoderDestroy` (libavif proper) releases
one native decoder handle. -/
def avifDecoderDestroy (h : Nat) (s : NativeState) : NativeState :=
  { s with allocated := s.allocated.erase h }

/-- Modelled from the spec: the state of a freshly created `avifDecoder`.
The frame cursor starts before the first frame (the spec: the first
`DecodeNext` after construction decodes frame 0, and `CurrentFrameIndex`
is cursor + 1 = number of frames decoded so far, hence index `-1` here);
strict decoding is fully enabled by default. -/
def initDecoderState : DecoderState :=
  { maxThreads := 1, ignoreXMP := false, ignoreExif := false,
    strictFlags := { pixiRequired := true, clapValid := true, alphaIspeRequired := true },
    alphaPresent := false, imageCount := 0, repetitionCount := 0,
    imageIndex := -1,
    image := { width := 0, height := 0, depth := 0, planes := [] } }

/-- The decoder configuration `CreateDecoderAndParse` establishes before
parsing: `maxThreads` set, EXIF/XMP ignored, the `clap` and `pixi` strict
checks cleared (source lines 55-65). -/
def configuredState (threads : Int) : DecoderState :=
  { initDecoderState with
      maxThreads := threads, ignoreXMP := true, ignoreExif := true,
      strictFlags := { pixiRequired := false, clapValid := false,
                       alphaIspeRequired := true } }

/-- The decoder fields `avifDecoderParse` populates on success. -/
def applyParse (p : ParsedInfo) (d : DecoderState) : DecoderState :=
  { d with alphaPresent := p.alphaPresent, imageCount := p.imageCount,
           repetitionCount := p.repetitionCount, image := p.image }

/-- The decoder state after a successful `CreateDecoderAndParse`. -/
def parsedState (lib : NativeLib) (threads : Int) : DecoderState :=
  applyParse lib.parsed (configuredState threads)

/-- The RAII wrapper from the JNI file: it owns at most one native decoder
(`decoder` is null until `CreateDecoderAndParse` sets it). -/
structure AvifDecoderWrapper where
  decoder : Option (Nat × DecoderState)
  deriving DecidableEq, Repr

/-- The destructor `AvifDecoderWrapper::~AvifDecoderWrapper` (source lines
38-42): destroy the native decoder if the handle is non-null, otherwise do
nothing. -/
def wrapperDestructor (w : AvifDecoderWrapper) (s : NativeState) : NativeState :=
  match w.decoder with
  | none => s
  | some (h, _) => avifDecoderDestroy h s

/-- `CreateDecoderAndParse` (source lines 47-78): create a decoder into the
wrapper, configure it, bind the input memory, parse.  Returns the success
flag together with the wrapper (which may own a decoder even when the flag
is false — the caller's destructor is responsible for it). -/
def CreateDecoderAndParse (lib : NativeLib) (threads : Int) (s : NativeState) :
    Bool × AvifDecoderWrapper × NativeState :=
  match avifDecoderCreate lib s with
  | (none, s1) => (false, { decoder := none }, s1)
  | (some h, s1) =>
    if lib.setIOResult ≠ AvifResult.ok then
      (false, { decoder := some (h, configuredState threads) }, s1)
    else if lib.parseResult ≠ AvifResult.ok then
      (false, { decoder := some (h, configuredState threads) }, s1)
    else
      (true, { decoder := some (h, parsedState lib threads) }, s1)

/-- Modelled from the spec: `avifRGBImageSetDefaults` (libavif proper) sets
the standard layout — RGBA ordering, the image's own depth, integer
samples, alpha not premultiplied; `rowBytes` and the pixel pointer are
filled in by the caller. -/
def avifRGBImageSetDefaults (img : AvifImage) : RgbConfig :=
  { format := RgbFormat.rgba, depth := img.depth, isFloat := false,
    alphaPremultiplied := false, rowBytes := 0 }

/-- The `avifRGBImage` configuration `AvifImageToBitmap` passes to
`avifImageYUVToRGB` (source lines 111-127): defaults, then the
format-specific overrides, then the bitmap stride, and alpha always
premultiplied. -/
def rgbConfigFor (img : AvifImage) (bmp : Bitmap) : RgbConfig :=
  let rgb0 := avifRGBImageSetDefaults img
  let rgb1 :=
    if bmp.format = BitmapFormat.rgbaF16 then
      { rgb0 with depth := 16, isFloat := true }
    else if bmp.format = BitmapFormat.rgb565 then
      { rgb0 with format := RgbFormat.rgb565, depth := 8 }
    else
      { rgb0 with depth := 8 }
  { rgb1 with rowBytes := bmp.stride, alphaPremultiplied := true }

/-- Modelled from the spec: a successful `avifImageYUVToRGB` overwrites the
image region of the target buffer with bytes determined by the source image
and the RGB configuration, and touches nothing else (spec 4.2: "target
buffer pixels are mutated in place; no other observable state changes").
The written region is modelled as a prefix overlay. -/
def yuvOverlay (region : List Nat) (old : List Nat) : List Nat :=
  region ++ old.drop region.length

/-- `AvifImageToBitmap` (source lines 80-135): read the bitmap info, check
the bitmap is large enough, check the format is one of RGBA_8888, RGB_565,
RGBA_F16, lock the pixels, build the RGB configuration, convert, unlock. -/
def AvifImageToBitmap (lib : NativeLib) (d : DecoderState) (bmp : Bitmap) :
    AvifResult × Bitmap :=
  if !lib.getInfoOk then (AvifResult.unknownError, bmp)
  else if bmp.width < d.image.width || bmp.height < d.image.height then
    (AvifResult.unknownError, bmp)
  else if bmp.format ≠ BitmapFormat.rgba8888 ∧ bmp.format ≠ BitmapFormat.rgb565 ∧
      bmp.format ≠ BitmapFormat.rgbaF16 then
    (AvifResult.notImplemented, bmp)
  else if !lib.lockOk then (AvifResult.unknownError, bmp)
  else
    let rgb := rgbConfigFor d.image bmp
    let res := lib.yuvResult d.image rgb
    if res ≠ AvifResult.ok then
      (res, { bmp with pixels := lib.yuvFail d.image rgb bmp.pixels })
    else
      (AvifResult.ok, { bmp with pixels := yuvOverlay (lib.yuvPixels d.image rgb) bmp.pixels })

/-- C2: a bitmap smaller than the decoded image in either dimension makes
the conversion fail with the too-small error (surfaced as
`AVIF_RESULT_UNKNOWN_ERROR`, the binding's code for the spec's
`TargetTooSmall`), and the bitmap — its pixel contents included — is
returned completely unchanged: the failure happens before the pixels are
ever locked. -/
theorem C2_target_too_small (lib : NativeLib) (d : DecoderState) (bmp : Bitmap)
    (hinfo : lib.getInfoOk = true)
    (hsmall : bmp.width < d.image.width ∨ bmp.height < d.image.height) :
    AvifImageToBitmap lib d bmp = (AvifResult.unknownError, bmp) := by
  have hdim : (bmp.width < d.image.width || bmp.height < d.image.height) = true := by
    rcases hsmall with h | h <;> simp [h]
  simp [AvifImageToBitmap, hinfo, hdim]

/-- A sample decoded image used by the concrete witnesses. -/
def sampleImage : AvifImage :=
  { width := 2, height := 2, depth := 8, planes := [9, 9, 9, 9] }

/-- A sample parse outcome used by the concrete witnesses. -/
def sampleParsed : ParsedInfo :=
  { image := sampleImage, alphaPresent := true, imageCount := 3,
    repetitionCount := 0 }

/-- A sample native environment in which every external call succeeds. -/
def sampleLib : NativeLib :=
  { cpuCount := 4, createOk := true, setIOResult := AvifResult.ok,
    parseResult := AvifResult.ok, parsed := sampleParsed,
    nextResult := fun _ => AvifResult.ok, nextImageAt := fun _ => sampleImage,
    nthResult := fun _ => AvifResult.ok, nthImageAt := fun _ => sampleImage,
    timing := fun _ => some 0.04,
    yuvResult := fun _ _ => AvifResult.ok,
    yuvPixels := fun img _ => List.replicate (img.width * img.height) 255,
    yuvFail := fun _ _ p => p,
    getInfoOk := true, lockOk := true, wrapperAllocOk := true,
    durationsAllocOk := true, javaArrayOk := true }

/-- A sample decoder state holding the parsed sample image. -/
def sampleDecoder : DecoderState := parsedState sampleLib 2

/-- A 1×1 RGBA_8888 bitmap: too small for the 2×2 sample image. -/
def smallBitmap : Bitmap :=
  { width := 1, height := 1, stride := 4, format := BitmapFormat.rgba8888,
    pixels := [1, 2, 3, 4] }

/-- C2 witness: the conversion of the 2×2 sample image into a 1×1 bitmap
fails with the too-small error and leaves the bitmap untouched. -/
theorem C2_target_too_small_witness :
    AvifImageToBitmap sampleLib sampleDecoder smallBitmap =
      (AvifResult.unknownError, smallBitmap) :=
  C2_target_too_small sampleLib sampleDecoder smallBitmap rfl
    (Or.inl (by decide))

/-- C3: a bitmap whose format is none of RGBA_8888, RGB_565, RGBA_F16 makes
the conversion fail with `AVIF_RESULT_NOT_IMPLEMENTED` (the binding's code
for the spec's `UnsupportedFormat`), and for each supported format the RGB
configuration handed to the converter is exactly as specified: RGBA_F16
gives depth 16 with floating samples, RGB_565 gives the packed 565 layout
at depth 8, and RGBA_8888 gives depth 8 in the standard (default RGBA,
integer) layout. -/
theorem C3_format_validation_and_mapping (lib : NativeLib) (d : DecoderState)
    (bmp bmp8 bmp5 bmpF : Bitmap) (img : AvifImage) (code : Nat)
    (hinfo : lib.getInfoOk = true)
    (hw : d.image.width ≤ bmp.width) (hh : d.image.height ≤ bmp.height)
    (hbad : bmp.format = BitmapFormat.other code)
    (h8 : bmp8.format = BitmapFormat.rgba8888)
    (h5 : bmp5.format = BitmapFormat.rgb565)
    (hF : bmpF.format = BitmapFormat.rgbaF16) :
    AvifImageToBitmap lib d bmp = (AvifResult.notImplemented, bmp) ∧
    ((rgbConfigFor img bmpF).depth = 16 ∧ (rgbConfigFor img bmpF).isFloat = true) ∧
    ((rgbConfigFor img bmp5).format = RgbFormat.rgb565 ∧
      (rgbConfigFor img bmp5).depth = 8) ∧
    ((rgbConfigFor img bmp8).depth = 8 ∧
      (rgbConfigFor img bmp8).format = RgbFormat.rgba ∧
      (rgbConfigFor img bmp8).isFloat = false) := by
  refine ⟨?_, ?_, ?_, ?_⟩
  · have hw' : ¬ bmp.width < d.image.width := not_lt.mpr hw
    have hh' : ¬ bmp.height < d.image.height := not_lt.mpr hh
    simp [AvifImageToBitmap, hinfo, hw', hh', hbad]
  · simp [rgbConfigFor, hF]
  · simp [rgbConfigFor, h5, avifRGBImageSetDefaults]
  · simp [rgbConfigFor, h8, avifRGBImageSetDefaults]

/-- A 2×2 bitmap with an unsupported format (format code 99). -/
def oddFormatBitmap : Bitmap :=
  { width := 2, height := 2, stride := 8, format := BitmapFormat.other 99,
    pixels := [0, 0, 0, 0] }

/-- A 2×2 RGBA_8888 bitmap, large enough for the sample image. -/
def rgbaBitmap : Bitmap :=
  { width := 2, height := 2, stride := 8, format := BitmapFormat.rgba8888,
    pixels := List.replicate 16 0 }

/-- A 2×2 RGB_565 bitmap. -/
def rgb565Bitmap : Bitmap :=
  { width := 2, height := 2, stride := 4, format := BitmapFormat.rgb565,
    pixels := List.replicate 8 0 }

/-- A 2×2 RGBA_F16 bitmap. -/
def rgbaF16Bitmap : Bitmap :=
  { width := 2, height := 2, stride := 16, format := BitmapFormat.rgbaF16,
    pixels := List.replicate 32 0 }

/-- C3 witness: at the concrete sample environment, conversion into the
odd-format bitmap fails with `NOT_IMPLEMENTED`, and the three concrete
supported bitmaps receive exactly the specified conversion parameters. -/
theorem C3_format_validation_and_mapping_witness :
    AvifImageToBitmap sampleLib sampleDecoder oddFormatBitmap =
      (AvifResult.notImplemented, oddFormatBitmap) ∧
    ((rgbConfigFor sampleImage rgbaF16Bitmap).depth = 16 ∧
      (rgbConfigFor sampleImage rgbaF16Bitmap).isFloat = true) ∧
    ((rgbConfigFor sampleImage rgb565Bitmap).format = RgbFormat.rgb565 ∧
      (rgbConfigFor sampleImage rgb565Bitmap).depth = 8) ∧
    ((rgbConfigFor sampleImage rgbaBitmap).depth = 8 ∧
      (rgbConfigFor sampleImage rgbaBitmap).format = RgbFormat.rgba ∧
      (rgbConfigFor sampleImage rgbaBitmap).isFloat = false) :=
  C3_format_validation_and_mapping sampleLib sampleDecoder oddFormatBitmap
    rgbaBitmap rgb565Bitmap rgbaF16Bitmap sampleImage 99 rfl
    (by decide) (by decide) rfl rfl rfl rfl

/-- C7: the RGB configuration built for the converter always has
`alphaPremultiplied` set, whatever the source image and whatever the
bitmap (so in particular whatever its format): the premultiplied-alpha
policy is unconditional and not reachable from any caller input.  Every
conversion path of the binding (`DecodeNextImage`, `DecodeNthImage`, the
one-shot `decode`) calls `avifImageYUVToRGB` through `AvifImageToBitmap`,
which passes exactly `rgbConfigFor`. -/
theorem C7_alpha_always_premultiplied (img : AvifImage) (bmp : Bitmap) :
    (rgbConfigFor img bmp).alphaPremultiplied = true := by
  simp [rgbConfigFor]

/-- `DecodeNextImage` (source lines 137-145): advance the native decoder to
the next frame, then convert into the bitmap. -/
def DecodeNextImage (lib : NativeLib) (d : DecoderState) (bmp : Bitmap) :
    AvifResult × DecoderState × Bitmap :=
  let k := (d.imageIndex + 1).toNat
  match lib.nextResult k with
  | AvifResult.ok =>
    let d1 := { d with imageIndex := d.imageIndex + 1, image := lib.nextImageAt k }
    let (r2, b2) := AvifImageToBitmap lib d1 bmp
    (r2, d1, b2)
  | r => (r, d, bmp)

/-- `DecodeNthImage` (source lines 147-155): seek the native decoder to
frame `n`, then convert into the bitmap.  The seek semantics (cursor set to
`n`, current image replaced by frame `n`, deterministically in the input)
is modelled from the spec, `avifDecoderNthImage` being libavif proper. -/
def DecodeNthImage (lib : NativeLib) (d : DecoderState) (n : Nat) (bmp : Bitmap) :
    AvifResult × DecoderState × Bitmap :=
  match lib.nthResult n with
  | AvifResult.ok =>
    let d1 := { d with imageIndex := (n : Int), image := lib.nthImageAt n }
    let (r2, b2) := AvifImageToBitmap lib d1 bmp
    (r2, d1, b2)
  | r => (r, d, bmp)

/-- `getThreadCount` (source lines 157-159): 0 means the detected CPU core
count, anything else is passed through. -/
def getThreadCount (lib : NativeLib) (threads : Int) : Int :=
  if threads = 0 then lib.cpuCount else threads

/-- The body of the JNI `decode` entry point after the thread-count
validation (source lines 205-212): construct into a stack wrapper, decode
the next (first) frame into the bitmap; the wrapper's destructor runs on
every path out of the scope. -/
def decodeBody (lib : NativeLib) (bmp : Bitmap) (threads : Int) (s : NativeState) :
    Bool × Bitmap × NativeState :=
  match CreateDecoderAndParse lib (getThreadCount lib threads) s with
  | (false, w, s1) => (false, bmp, wrapperDestructor w s1)
  | (true, w, s1) =>
    match w.decoder with
    | none => (false, bmp, wrapperDestructor w s1)
    | some (h, d) =>
      let (res, d1, b1) := DecodeNextImage lib d bmp
      (res = AvifResult.ok, b1,
        wrapperDestructor { decoder := some (h, d1) } s1)

/-- The JNI `decode` entry point (source lines 199-213): reject a negative
thread count, then run the decode body. -/
def decode (lib : NativeLib) (bmp : Bitmap) (threads : Int) (s : NativeState) :
    Bool × Bitmap × NativeState :=
  if threads < 0 then (false, bmp, s)
  else decodeBody lib bmp threads s

/-- `destroyDecoder` (source lines 309-313): `delete` the wrapper — a no-op
on the null handle, otherwise the wrapper's destructor runs and the wrapper
itself is freed. -/
def destroyDecoder (w : Option AvifDecoderWrapper) (s : NativeState) : NativeState :=
  match w with
  | none => s
  | some w => wrapperDestructor w s

/-- The spec's `Construct` (section 4.1), written from the spec's words for
the refinement claim C1: validate the thread count, create and parse, and
on failure clean up before returning the error so that no live session and
no leaked handle remains. -/
def Construct (lib : NativeLib) (threads : Int) (s : NativeState) :
    Option (Nat × DecoderState) × NativeState :=
  if threads < 0 then (none, s)
  else
    match CreateDecoderAndParse lib (getThreadCount lib threads) s with
    | (false, w, s1) => (none, wrapperDestructor w s1)
    | (true, w, s1) =>
      match w.decoder with
      | some hd => (some hd, s1)
      | none => (none, wrapperDestructor w s1)

/-- The spec's composition for the one-shot decode (section 4.3), written
from the spec's words for the refinement claim C1: `Construct`, then
`DecodeNext` into the target, then `Destroy`, with the session destroyed on
every exit path. -/
def decodeViaSession (lib : NativeLib) (bmp : Bitmap) (threads : Int)
    (s : NativeState) : Bool × Bitmap × NativeState :=
  match Construct lib threads s with
  | (none, s1) => (false, bmp, s1)
  | (some (h, d), s1) =>
    let (res, d1, b1) := DecodeNextImage lib d bmp
    (res = AvifResult.ok, b1,
      destroyDecoder (some { decoder := some (h, d1) }) s1)

/-- The Java-side `AvifDecoder` object fields that `createDecoder` writes
through JNI (source lines 231-273). -/
structure JavaDecoderFields where
  width : Nat
  height : Nat
  depth : Nat
  alphaPresent : Bool
  frameCount : Nat
  repetitionCount : Int
  frameDurations : Option (List Float)

/-- The metadata writes of `createDecoder` (source lines 244-251): width,
height, depth, alpha flag, repetition count and frame count are copied from
the parsed decoder into the Java object. -/
def setMetadataFields (d : DecoderState) (f : JavaDecoderFields) :
    JavaDecoderFields :=
  { f with width := d.image.width, height := d.image.height,
           depth := d.image.depth, alphaPresent := d.alphaPresent,
           repetitionCount := d.repetitionCount, frameCount := d.imageCount }

/-- The per-frame timing loop of `createDecoder` (source lines 259-266):
query the timing of every frame index below `n` in order; any failure
aborts the whole collection. -/
def collectDurations (lib : NativeLib) : Nat → Option (List Float)
  | 0 => some []
  | n + 1 =>
    match collectDurations lib n, lib.timing n with
    | some l, some t => some (l ++ [t])
    | _, _ => none

/-- The body of the JNI `createDecoder` entry point after the thread-count
validation (source lines 220-274): heap-allocate the wrapper, create and
parse, write the metadata fields, collect the frame durations, publish
them, and only then release the wrapper from its `unique_ptr` so that every
failure path frees the native decoder. -/
def createDecoderBody (lib : NativeLib) (f : JavaDecoderFields) (threads : Int)
    (s : NativeState) :
    Option (Nat × DecoderState) × JavaDecoderFields × NativeState :=
  if !lib.wrapperAllocOk then (none, f, s)
  else
    match CreateDecoderAndParse lib (getThreadCount lib threads) s with
    | (false, w, s1) => (none, f, wrapperDestructor w s1)
    | (true, w, s1) =>
      match w.decoder with
      | none => (none, f, wrapperDestructor w s1)
      | some (h, d) =>
        let f1 := setMetadataFields d f
        if !lib.durationsAllocOk then (none, f1, avifDecoderDestroy h s1)
        else
          match collectDurations lib d.imageCount with
          | none => (none, f1, avifDecoderDestroy h s1)
          | some durs =>
            if !lib.javaArrayOk then (none, f1, avifDecoderDestroy h s1)
            else (some (h, d), { f1 with frameDurations := some durs }, s1)

/-- The JNI `createDecoder` entry point (source lines 215-275): reject a
negative thread count, then run the body.  A `none` first component is the
null handle 0 returned to Java. -/
def createDecoder (lib : NativeLib) (f : JavaDecoderFields) (threads : Int)
    (s : NativeState) :
    Option (Nat × DecoderState) × JavaDecoderFields × NativeState :=
  if threads < 0 then (none, f, s)
  else createDecoderBody lib f threads s

/-- `nextFrameIndex` (source lines 283-287): the JNI layer returns the
decoder's frame cursor plus one. -/
def nextFrameIndex (d : DecoderState) : Int :=
  d.imageIndex + 1

/-- A fresh native allocation state used by the concrete witnesses. -/
def sampleState : NativeState := { allocated := [], nextHandle := 1 }

/-- A default-initialized Java `AvifDecoder` object, all fields unset. -/
def sampleFields : JavaDecoderFields :=
  { width := 0, height := 0, depth := 0, alphaPresent := false,
    frameCount := 0, repetitionCount := 0, frameDurations := none }

/-- C6: both session construction and the one-shot decode reject a negative
thread count up front — `createDecoder` answers the null handle and
`decode` answers false, with the native allocation state untouched (no
decoder was allocated) — and any non-negative thread count passes the
validation, the call proceeding to the respective body. -/
theorem C6_thread_count_validated (lib : NativeLib) (f : JavaDecoderFields)
    (bmp : Bitmap) (threads : Int) (s : NativeState) :
    (threads < 0 →
      createDecoder lib f threads s = (none, f, s) ∧
      decode lib bmp threads s = (false, bmp, s)) ∧
    (0 ≤ threads →
      createDecoder lib f threads s = createDecoderBody lib f threads s ∧
      decode lib bmp threads s = decodeBody lib bmp threads s) := by
  constructor
  · intro h
    constructor <;> simp [createDecoder, decode, h]
  · intro h
    constructor <;> simp [createDecoder, decode, not_lt.mpr h]

/-- C6 witness: thread count -3 is rejected by both entry points with the
state untouched, and thread count 2 passes the validation. -/
theorem C6_thread_count_validated_witness :
    (createDecoder sampleLib sampleFields (-3) sampleState =
        (none, sampleFields, sampleState) ∧
      decode sampleLib rgbaBitmap (-3) sampleState =
        (false, rgbaBitmap, sampleState)) ∧
    (createDecoder sampleLib sampleFields 2 sampleState =
        createDecoderBody sampleLib sampleFields 2 sampleState ∧
      decode sampleLib rgbaBitmap 2 sampleState =
        decodeBody sampleLib rgbaBitmap 2 sampleState) :=
  ⟨(C6_thread_count_validated sampleLib sampleFields rgbaBitmap (-3) sampleState).1
      (by decide),
    (C6_thread_count_validated sampleLib sampleFields rgbaBitmap 2 sampleState).2
      (by decide)⟩

/-- C8: the wrapper destructor releases the owned native decoder handle when
there is one; when the handle is already null it leaves the native state
untouched; `destroyDecoder` on the null session handle is a no-op (the
`delete` of a null pointer); and therefore destroying again after a destroy
— the destroyed session being the null handle, the only state the caller
contract leaves defined — has no further effect. -/
theorem C8_destroy_idempotent (h : Nat) (d : DecoderState)
    (s s2 : NativeState) (w : Option AvifDecoderWrapper) :
    (wrapperDestructor { decoder := some (h, d) } s).allocated =
      s.allocated.erase h ∧
    wrapperDestructor { decoder := none } s = s ∧
    destroyDecoder none s2 = s2 ∧
    destroyDecoder none (destroyDecoder w s) = destroyDecoder w s :=
  ⟨rfl, rfl, rfl, rfl⟩

/-- C1: the one-shot `decode` entry point is, observably and exactly, the
spec's `Construct` – `DecodeNext` – `Destroy` composition (same boolean
outcome, same target contents, same final native state on every path,
the thread-count rejection, construction failure and decode failure paths
included), and it never leaks the native decoder: the set of live handles
after the call is the set of live handles before it. -/
theorem C1_decode_refines_session (lib : NativeLib) (bmp : Bitmap)
    (threads : Int) (s : NativeState) :
    decode lib bmp threads s = decodeViaSession lib bmp threads s ∧
    (decode lib bmp threads s).2.2.allocated = s.allocated := by
  unfold decode decodeViaSession decodeBody Construct CreateDecoderAndParse
    avifDecoderCreate
  by_cases ht : threads < 0
  · simp [ht]
  · by_cases hc : lib.createOk
    · by_cases hio : lib.setIOResult = AvifResult.ok
      · by_cases hp : lib.parseResult = AvifResult.ok
        · rcases hD : DecodeNextImage lib
              (parsedState lib (getThreadCount lib threads)) bmp with ⟨res, d1, b1⟩
          simp [ht, hc, hio, hp, hD, wrapperDestructor, destroyDecoder,
            avifDecoderDestroy, List.erase_cons_head]
        · simp [ht, hc, hio, hp, wrapperDestructor, destroyDecoder,
            avifDecoderDestroy, List.erase_cons_head]
      · simp [ht, hc, hio, wrapperDestructor, destroyDecoder,
          avifDecoderDestroy, List.erase_cons_head]
    · simp [ht, hc, wrapperDestructor, destroyDecoder]

/-- Helper: any decoder a `CreateDecoderAndParse` wrapper can hold has its
frame cursor still at the pre-first-frame position. -/
theorem cdap_cursor_start (lib : NativeLib) (threads : Int) (s : NativeState)
    (h : Nat) (d : DecoderState)
    (hsome : (CreateDecoderAndParse lib threads s).2.1.decoder = some (h, d)) :
    d.imageIndex = -1 := by
  unfold CreateDecoderAndParse avifDecoderCreate at hsome
  by_cases hc : lib.createOk
  · by_cases hio : lib.setIOResult = AvifResult.ok
    · by_cases hp : lib.parseResult = AvifResult.ok
      · simp [hc, hio, hp] at hsome
        rcases hsome with ⟨-, hd⟩
        rw [← hd]
        rfl
      · simp [hc, hio, hp] at hsome
        rcases hsome with ⟨-, hd⟩
        rw [← hd]
        rfl
    · simp [hc, hio] at hsome
      rcases hsome with ⟨-, hd⟩
      rw [← hd]
      rfl
  · simp [hc] at hsome

/-- Helper: a successful `DecodeNextImage` leaves the cursor advanced by
one. -/
theorem decodeNext_cursor (lib : NativeLib) (d : DecoderState) (bmp : Bitmap)
    (hok : (DecodeNextImage lib d bmp).1 = AvifResult.ok) :
    (DecodeNextImage lib d bmp).2.1.imageIndex = d.imageIndex + 1 := by
  unfold DecodeNextImage at hok ⊢
  cases hr : lib.nextResult ((d.imageIndex + 1).toNat) with
  | ok =>
    rcases hA : AvifImageToBitmap lib
        { d with imageIndex := d.imageIndex + 1,
                 image := lib.nextImageAt ((d.imageIndex + 1).toNat) } bmp
      with ⟨r2, b2⟩
    simp [hr, hA]
  | unknownError => simp [hr] at hok
  | notImplemented => simp [hr] at hok
  | other c => simp [hr] at hok

/-- C5: the JNI `nextFrameIndex` returns the frame cursor plus one â the
number of frames decoded so far rather than a zero-based index â and in
particular, for a decoder fresh out of a session construction, one
successful `DecodeNextImage` makes it 1. -/
theorem C5_next_frame_index (lib : NativeLib) (threads : Int) (s : NativeState)
    (h : Nat) (d : DecoderState) (bmp : Bitmap)
    (hsome : (CreateDecoderAndParse lib threads s).2.1.decoder = some (h, d))
    (hok : (DecodeNextImage lib d bmp).1 = AvifResult.ok) :
    (∀ e : DecoderState, nextFrameIndex e = e.imageIndex + 1) ∧
    nextFrameIndex (DecodeNextImage lib d bmp).2.1 = 1 := by
  refine ⟨fun e => rfl, ?_⟩
  have hidx : d.imageIndex = -1 := cdap_cursor_start lib threads s h d hsome
  have hcur := decodeNext_cursor lib d bmp hok
  unfold nextFrameIndex
  rw [hcur, hidx]
  norm_num

/-- C5 witness: with the sample environment, the decoder fresh out of
construction decodes one frame successfully and `nextFrameIndex` then
answers 1 (not 0). -/
theorem C5_next_frame_index_witness :
    nextFrameIndex (DecodeNextImage sampleLib sampleDecoder rgbaBitmap).2.1 = 1 :=
  (C5_next_frame_index sampleLib 2 sampleState 1 sampleDecoder rgbaBitmap
    rfl (by decide)).2

/-- Helper: a successful duration collection has one entry per frame. -/
theorem collectDurations_length (lib : NativeLib) :
    ∀ n l, collectDurations lib n = some l → l.length = n := by
  intro n
  induction n with
  | zero =>
    intro l hl
    simp [collectDurations] at hl
    simp [← hl]
  | succ n ih =>
    intro l hl
    unfold collectDurations at hl
    cases hc : collectDurations lib n with
    | none => rw [hc] at hl; simp at hl
    | some l0 =>
      cases htm : lib.timing n with
      | none => rw [hc, htm] at hl; simp at hl
      | some t =>
        rw [hc, htm] at hl
        simp at hl
        rw [← hl]
        simp [ih l0 hc]

/-- Helper: one failing timing query below `n` aborts the whole duration
collection. -/
theorem collectDurations_fail (lib : NativeLib) :
    ∀ n i, i < n → lib.timing i = none → collectDurations lib n = none := by
  intro n
  induction n with
  | zero => intro i hi; exact absurd hi (Nat.not_lt_zero i)
  | succ n ih =>
    intro i hi htm
    unfold collectDurations
    rcases Nat.lt_succ_iff_lt_or_eq.mp hi with hlt | heq
    · rw [ih i hlt htm]
    · subst heq
      rw [htm]
      cases collectDurations lib i <;> rfl

/-- C4: session construction is all-or-nothing about the per-frame duration
sequence — whenever `createDecoder` hands back a live handle, the Java
object holds a duration sequence of length exactly the parsed frame count,
and whenever any timing query below the parsed frame count fails, the whole
construction fails with the null handle instead of partial durations. -/
theorem C4_durations_all_or_nothing (lib : NativeLib) (f : JavaDecoderFields)
    (threads : Int) (s : NativeState) :
    ((createDecoder lib f threads s).1 ≠ none →
      ∃ l, (createDecoder lib f threads s).2.1.frameDurations = some l ∧
        l.length = lib.parsed.imageCount) ∧
    ((∃ i, i < lib.parsed.imageCount ∧ lib.timing i = none) →
      (createDecoder lib f threads s).1 = none) := by
  by_cases ht : threads < 0
  · simp [createDecoder, ht]
  · by_cases hwa : lib.wrapperAllocOk
    · by_cases hc : lib.createOk
      · by_cases hio : lib.setIOResult = AvifResult.ok
        · by_cases hp : lib.parseResult = AvifResult.ok
          · by_cases hda : lib.durationsAllocOk
            · cases hcd : collectDurations lib
                  (parsedState lib (getThreadCount lib threads)).imageCount with
              | none =>
                simp [createDecoder, createDecoderBody, CreateDecoderAndParse,
                  avifDecoderCreate, ht, hwa, hc, hio, hp, hda, hcd]
              | some durs =>
                have hlen := collectDurations_length lib _ durs hcd
                by_cases hja : lib.javaArrayOk
                · constructor
                  · intro _
                    refine ⟨durs, ?_, ?_⟩
                    · simp [createDecoder, createDecoderBody, CreateDecoderAndParse,
                        avifDecoderCreate, ht, hwa, hc, hio, hp, hda, hcd, hja,
                        setMetadataFields]
                    · simpa [parsedState, applyParse, configuredState] using hlen
                  · rintro ⟨i, hi, htm⟩
                    exfalso
                    have hnone : collectDurations lib
                        (parsedState lib (getThreadCount lib threads)).imageCount
                          = none := by
                      refine collectDurations_fail lib _ i ?_ htm
                      simpa [parsedState, applyParse, configuredState] using hi
                    rw [hcd] at hnone
                    exact Option.noConfusion hnone
                · simp [createDecoder, createDecoderBody, CreateDecoderAndParse,
                    avifDecoderCreate, ht, hwa, hc, hio, hp, hda, hcd, hja]
            · simp [createDecoder, createDecoderBody, CreateDecoderAndParse,
                avifDecoderCreate, ht, hwa, hc, hio, hp, hda]
          · simp [createDecoder, createDecoderBody, CreateDecoderAndParse,
              avifDecoderCreate, ht, hwa, hc, hio, hp]
        · simp [createDecoder, createDecoderBody, CreateDecoderAndParse,
            avifDecoderCreate, ht, hwa, hc, hio]
      · simp [createDecoder, createDecoderBody, CreateDecoderAndParse,
          avifDecoderCreate, ht, hwa, hc]
    · simp [createDecoder, createDecoderBody, ht, hwa]

/-- The sample environment with every per-frame timing query failing. -/
def failTimingLib : NativeLib := { sampleLib with timing := fun _ => none }

/-- C4 witness: in the all-success sample environment the created session
carries a duration sequence of length exactly the parsed frame count 3,
and in the failing-timing environment construction returns the null
handle. -/
theorem C4_durations_all_or_nothing_witness :
    (∃ l, (createDecoder sampleLib sampleFields 2 sampleState).2.1.frameDurations
        = some l ∧ l.length = sampleLib.parsed.imageCount) ∧
    (createDecoder failTimingLib sampleFields 2 sampleState).1 = none :=
  ⟨(C4_durations_all_or_nothing sampleLib sampleFields 2 sampleState).1
      (by decide),
    (C4_durations_all_or_nothing failTimingLib sampleFields 2 sampleState).2
      ⟨0, by decide, rfl⟩⟩

/-- C10: when construction fails after a successful parse — the durations
array cannot be allocated, or some timing query fails — `createDecoder`
returns the null handle, yet the six caller-visible metadata fields of the
Java object have already been overwritten with the parsed values, while the
duration field alone keeps its previous content: the failure is not atomic
with respect to the metadata. -/
theorem C10_metadata_not_atomic (lib : NativeLib) (f : JavaDecoderFields)
    (threads : Int) (s : NativeState)
    (ht : ¬ threads < 0) (hwa : lib.wrapperAllocOk = true)
    (hc : lib.createOk = true) (hio : lib.setIOResult = AvifResult.ok)
    (hp : lib.parseResult = AvifResult.ok)
    (hfail : lib.durationsAllocOk = false ∨
      collectDurations lib lib.parsed.imageCount = none) :
    (createDecoder lib f threads s).1 = none ∧
    (createDecoder lib f threads s).2.1.width = lib.parsed.image.width ∧
    (createDecoder lib f threads s).2.1.height = lib.parsed.image.height ∧
    (createDecoder lib f threads s).2.1.depth = lib.parsed.image.depth ∧
    (createDecoder lib f threads s).2.1.alphaPresent = lib.parsed.alphaPresent ∧
    (createDecoder lib f threads s).2.1.repetitionCount
      = lib.parsed.repetitionCount ∧
    (createDecoder lib f threads s).2.1.frameCount = lib.parsed.imageCount ∧
    (createDecoder lib f threads s).2.1.frameDurations = f.frameDurations := by
  have hcount : (parsedState lib (getThreadCount lib threads)).imageCount
      = lib.parsed.imageCount := by
    simp [parsedState, applyParse]
  rcases hfail with hda | hcd
  · simp [createDecoder, createDecoderBody, CreateDecoderAndParse,
      avifDecoderCreate, ht, hwa, hc, hio, hp, hda, setMetadataFields,
      parsedState, applyParse, configuredState]
  · by_cases hda : lib.durationsAllocOk
    · simp [createDecoder, createDecoderBody, CreateDecoderAndParse,
        avifDecoderCreate, ht, hwa, hc, hio, hp, hda, hcd, setMetadataFields,
        parsedState, applyParse, configuredState]
    · simp [createDecoder, createDecoderBody, CreateDecoderAndParse,
        avifDecoderCreate, ht, hwa, hc, hio, hp, hda, setMetadataFields,
        parsedState, applyParse, configuredState]

/-- C10 witness: in the failing-timing environment, construction of the
sample input returns the null handle with the metadata fields (2×2, depth
8, alpha present, 3 frames, repetition count 0) already written and the
duration field untouched. -/
theorem C10_metadata_not_atomic_witness :
    (createDecoder failTimingLib sampleFields 2 sampleState).1 = none ∧
    (createDecoder failTimingLib sampleFields 2 sampleState).2.1.width
      = failTimingLib.parsed.image.width ∧
    (createDecoder failTimingLib sampleFields 2 sampleState).2.1.height
      = failTimingLib.parsed.image.height ∧
    (createDecoder failTimingLib sampleFields 2 sampleState).2.1.depth
      = failTimingLib.parsed.image.depth ∧
    (createDecoder failTimingLib sampleFields 2 sampleState).2.1.alphaPresent
      = failTimingLib.parsed.alphaPresent ∧
    (createDecoder failTimingLib sampleFields 2 sampleState).2.1.repetitionCount
      = failTimingLib.parsed.repetitionCount ∧
    (createDecoder failTimingLib sampleFields 2 sampleState).2.1.frameCount
      = failTimingLib.parsed.imageCount ∧
    (createDecoder failTimingLib sampleFields 2 sampleState).2.1.frameDurations
      = sampleFields.frameDurations :=
  C10_metadata_not_atomic failTimingLib sampleFields 2 sampleState
    (by decide) rfl rfl rfl rfl (Or.inr rfl)

/-- Helper: overlaying the same region twice is the same as overlaying it
once. -/
theorem yuvOverlay_idem (r p : List Nat) :
    yuvOverlay r (yuvOverlay r p) = yuvOverlay r p := by
  simp [yuvOverlay, List.drop_left]

/-- Helper: the RGB configuration only reads the bitmap's format and
stride, so replacing the pixel contents does not change it. -/
theorem rgbConfigFor_pixels (img : AvifImage) (bmp : Bitmap) (px : List Nat) :
    rgbConfigFor img { bmp with pixels := px } = rgbConfigFor img bmp := by
  simp [rgbConfigFor]

/-- Helper: a successful image-to-bitmap conversion, repeated on its own
output bitmap, succeeds again and leaves the bitmap as it is. -/
theorem aitb_ok_idem (lib : NativeLib) (d : DecoderState) (bmp : Bitmap)
    (hok : (AvifImageToBitmap lib d bmp).1 = AvifResult.ok) :
    AvifImageToBitmap lib d (AvifImageToBitmap lib d bmp).2
      = (AvifResult.ok, (AvifImageToBitmap lib d bmp).2) := by
  unfold AvifImageToBitmap at hok ⊢
  by_cases hg : lib.getInfoOk
  · by_cases hdim : bmp.width < d.image.width ∨ bmp.height < d.image.height
    · rcases hdim with hd1 | hd1 <;> simp [hg, hd1] at hok
    · rw [not_or] at hdim
      rcases hdim with ⟨hd1, hd2⟩
      by_cases hfmt : bmp.format ≠ BitmapFormat.rgba8888 ∧
          bmp.format ≠ BitmapFormat.rgb565 ∧ bmp.format ≠ BitmapFormat.rgbaF16
      · simp [hg, hd1, hd2, hfmt] at hok
      · by_cases hl : lib.lockOk
        · by_cases hy : lib.yuvResult d.image (rgbConfigFor d.image bmp)
              = AvifResult.ok
          · simp [hg, hd1, hd2, hfmt, hl, hy, rgbConfigFor_pixels,
              yuvOverlay_idem]
          · simp [hg, hd1, hd2, hfmt, hl, hy] at hok
        · simp [hg, hd1, hd2, hfmt, hl] at hok
  · simp [hg] at hok

/-- C9: re-seeking to the same frame is idempotent — when `DecodeNthImage`
for frame `n` succeeds, running `DecodeNthImage` for `n` again on the
resulting session and target succeeds as well and leaves both the decoder
state and the target pixels exactly as they were after the first call. -/
theorem C9_decode_nth_idempotent (lib : NativeLib) (d : DecoderState)
    (n : Nat) (bmp : Bitmap)
    (hok : (DecodeNthImage lib d n bmp).1 = AvifResult.ok) :
    DecodeNthImage lib (DecodeNthImage lib d n bmp).2.1 n
        (DecodeNthImage lib d n bmp).2.2
      = (AvifResult.ok, (DecodeNthImage lib d n bmp).2.1,
          (DecodeNthImage lib d n bmp).2.2) := by
  unfold DecodeNthImage at hok ⊢
  cases hr : lib.nthResult n with
  | ok =>
    rcases hA : AvifImageToBitmap lib
        { d with imageIndex := (n : Int), image := lib.nthImageAt n } bmp
      with ⟨r2, b2⟩
    simp [hr, hA] at hok
    have h1 : (AvifImageToBitmap lib
        { d with imageIndex := (n : Int), image := lib.nthImageAt n } bmp).1
          = AvifResult.ok := by
      rw [hA, hok]
    have h2 := aitb_ok_idem lib
      { d with imageIndex := (n : Int), image := lib.nthImageAt n } bmp h1
    rw [hA] at h2
    simp [hr, hA, hok, h2]
  | unknownError => simp [hr] at hok
  | notImplemented => simp [hr] at hok
  | other c => simp [hr] at hok

/-- C9 witness: seeking the sample session to frame 1 twice — the second
time starting from the state and bitmap the first call produced — returns
success with the identical state and identical pixels. -/
theorem C9_decode_nth_idempotent_witness :
    DecodeNthImage sampleLib
        (DecodeNthImage sampleLib sampleDecoder 1 rgbaBitmap).2.1 1
        (DecodeNthImage sampleLib sampleDecoder 1 rgbaBitmap).2.2
      = (AvifResult.ok,
          (DecodeNthImage sampleLib sampleDecoder 1 rgbaBitmap).2.1,
          (DecodeNthImage sampleLib sampleDecoder 1 rgbaBitmap).2.2) :=
  C9_decode_nth_idempotent sampleLib sampleDecoder 1 rgbaBitmap (by decide)
